import Mathlib

/-!
# Verification of the UnrealQt framework activation logic

Shallow embedding of `framework.py` (class `UnrealQtFramework`).  The module
mutates process-wide state: the environment mapping (`os.environ`), the module
search path (`sys.path`) and the two prefix markers (`sys.prefix`,
`sys.real_prefix`).  We model that state explicitly and translate
`init_framework` and `platform_name` as pure state-passing functions.

External collaborators are parameters of a `Config`:
* whether `from sgtk.platform.qt import QtCore` succeeds (`qtAvailable`),
* `platform.system()` (`system`),
* `sys.version_info[0]` / `[1]` (`pyMajor` / `pyMinor`),
* `os.path.dirname(__file__)` (`frameworkDir`),
* `os.path.realpath` (`realpath`),
* the result of `os.listdir(<base>/lib)` (`libListing`; `none` models the
  call raising an `OSError`),
* `site.addsitedir` (`addsite`), the CPython helper that appends the given
  directory and any `.pth`-expansion entries to the module search path.
-/

namespace UnrealQt

/-- The two errors `init_framework` raises itself, plus the propagated
`OSError` of `os.listdir`.  `unsupportedPlatform` is the `ValueError` of
`platform_name` (the spec's `UnsupportedPlatformError`), carrying the raw
`platform.system()` string; `vendorLibraryNotFound` is the `RuntimeError` of
the library-folder search (the spec's `VendorLibraryNotFoundError`), carrying
the interpreter major version and the directory entries examined. -/
inductive ActError where
  | unsupportedPlatform (system : String)
  | vendorLibraryNotFound (major : Nat) (entries : List String)
  | osError
deriving DecidableEq, Repr

/-- Process-wide mutable state touched by `init_framework`. -/
structure PyState where
  /-- `os.environ`, as an association list (first binding of a key wins). -/
  environ : List (String × String)
  /-- `sys.path`. -/
  sysPath : List String
  /-- `sys.prefix`. -/
  pfx : String
  /-- `sys.real_prefix`; `none` while the attribute is unset. -/
  realPfx : Option String
deriving DecidableEq, Repr

/-- External collaborators of `init_framework` (host interpreter and OS). -/
structure Config where
  /-- Whether the Qt probe import succeeds. -/
  qtAvailable : Bool
  /-- `platform.system()`. -/
  system : String
  /-- `sys.version_info[0]`. -/
  pyMajor : Nat
  /-- `sys.version_info[1]`. -/
  pyMinor : Nat
  /-- `os.path.dirname(__file__)`. -/
  frameworkDir : String
  /-- `os.path.realpath`. -/
  realpath : String → String
  /-- Result of `os.listdir(os.path.join(base_path, "lib"))`; `none` models
  the listing call raising an `OSError`. -/
  libListing : Option (List String)
  /-- `site.addsitedir dir path`: the module search path after CPython's
  `site.addsitedir(dir)` ran on `path`. -/
  addsite : String → List String → List String

/-- `os.environ.get k`: first binding of `k`. -/
def envGet (env : List (String × String)) (k : String) : Option String :=
  match env with
  | [] => none
  | (k1, v1) :: t => if k1 = k then some v1 else envGet t k

/-- `os.environ[k] = v`: overwrite the binding in place, or append it. -/
def envSet (env : List (String × String)) (k v : String) : List (String × String) :=
  match env with
  | [] => [(k, v)]
  | (k1, v1) :: t => if k1 = k then (k, v) :: t else (k1, v1) :: envSet t k v

/-- `os.sep` of the host OS named by the remapped platform name. -/
def osDirSep (pname : String) : Char :=
  if pname = "windows" then '\\' else '/'

/-- `os.pathsep` of the host OS named by the remapped platform name. -/
def osPathSep (pname : String) : Char :=
  if pname = "windows" then ';' else ':'

/-- `os.path.join a b` for non-empty relative second components. -/
def pjoin (pname : String) (a b : String) : String :=
  a ++ String.mk [osDirSep pname] ++ b

/-- Python's `value.split(os.pathsep)` (single-character separator,
empty pieces kept, `"".split(sep) == [""]`). -/
def pathSplit (sep : Char) (s : String) : List String :=
  (s.toList.splitOn sep).map String.mk

/-- Python's `os.pathsep.join entries`. -/
def pathJoinSep (sep : Char) (entries : List String) : String :=
  String.mk (List.intercalate [sep] (entries.map String.toList))

/-- `re.match(r"^python%d\.\d+$" % major, folder)` of the source, as a
Boolean.  `\d` is modelled as the decimal digits `0`-`9`; following Python
semantics, `$` also matches just before a single newline at the very end of
the string. -/
def matchesPythonPattern (major : Nat) (folder : String) : Bool :=
  let l := folder.toList
  let pat := ("python" ++ toString major ++ ".").toList
  let rest := l.drop pat.length
  let core := if rest.getLast? = some '\n' then rest.dropLast else rest
  l.take pat.length = pat && !core.isEmpty && core.all Char.isDigit

/-- `UnrealQtFramework.platform_name` (lines 114-128): remap
`platform.system()` to one of the three canonical names, or raise. -/
def platform_name (system : String) : Except ActError String :=
  if system = "Darwin" then .ok "osx"
  else if system = "Linux" then .ok "linux"
  else if system = "Windows" then .ok "windows"
  else .error (.unsupportedPlatform system)

/-- The `bin_folder` selection of `init_framework` (lines 47-51). -/
def binFolderFor (pname : String) : String :=
  if pname = "windows" then "Scripts" else "bin"

/-- The `base_path` computation of `init_framework` (lines 58-66). -/
def basePath (cfg : Config) (pname : String) : String :=
  cfg.realpath
    (pjoin pname
      (pjoin pname
        (pjoin pname (pjoin pname cfg.frameworkDir "python") "vendors")
        ("py" ++ toString cfg.pyMajor ++ "." ++ toString cfg.pyMinor))
      pname)

/-- The `site_path` computation of `init_framework` (lines 69-94): the fixed
`Lib/site-packages` on Windows; otherwise the first entry of the `lib`
listing matching the version pattern (`for`/`break`), or the `RuntimeError`
of the `else` branch naming the major version and the entries examined. -/
def computeSitePath (pname : String) (major : Nat) (base : String)
    (libListing : Option (List String)) : Except ActError String :=
  if pname = "windows" then
    .ok (pjoin pname (pjoin pname base "Lib") "site-packages")
  else
    match libListing with
    | none => .error .osError
    | some lib_folders =>
      match lib_folders.find? (matchesPythonPattern major) with
      | some folder =>
        .ok (pjoin pname (pjoin pname (pjoin pname base "lib") folder) "site-packages")
      | none => .error (.vendorLibraryNotFound major lib_folders)

/-- The mutation block of `init_framework` (lines 96-109), reached only after
`site_path` was resolved: set `VIRTUAL_ENV`, prepend the bin folder to `PATH`
(split on `os.pathsep`, prepend, join back), run `site.addsitedir` and rotate
the appended entries to the front (`prev_length` slice trick), and overwrite
`sys.real_prefix` / `sys.prefix`. -/
def activateMutations (cfg : Config) (pname site_path : String) (s : PyState) : PyState :=
  let base_path := basePath cfg pname
  -- line 96
  let env1 := envSet s.environ "VIRTUAL_ENV" base_path
  -- lines 99-101
  let sep := osPathSep pname
  let env2 := envSet env1 "PATH"
    (pathJoinSep sep
      ([pjoin pname base_path (binFolderFor pname)] ++
        pathSplit sep ((envGet env1 "PATH").getD "")))
  -- lines 104-106: prev_length, addsitedir, slice rotation
  let prevLen := s.sysPath.length
  let p1 := cfg.addsite site_path s.sysPath
  -- lines 108-109
  { environ := env2,
    sysPath := p1.drop prevLen ++ p1.take prevLen,
    pfx := base_path,
    realPfx := some s.pfx }

/-- `UnrealQtFramework.init_framework` (lines 26-109), as a state-passing
function: the returned state is the process state when the call returns or
when the exception leaves the function. -/
def init_framework (cfg : Config) (s : PyState) : Except ActError Unit × PyState :=
  -- lines 37-43: probe; return untouched on success
  if cfg.qtAvailable then (.ok (), s)
  else
    -- line 45
    match platform_name cfg.system with
    | .error e => (.error e, s)
    | .ok pname =>
      -- lines 47-94 (`bin_folder`, `base_path`, `site_path`)
      match computeSitePath pname cfg.pyMajor (basePath cfg pname) cfg.libListing with
      | .error e => (.error e, s)
      | .ok site_path => (.ok (), activateMutations cfg pname site_path s)

/-- A concrete Linux host used to exercise the activation on explicit
inputs: CPython 3.9, a vendor tree whose `lib` listing is `["python3.9"]`,
`realpath` the identity, and an `addsitedir` that appends the given
directory and nothing else (no `.pth` expansions). -/
def sampleCfg : Config :=
  { qtAvailable := false
    system := "Linux"
    pyMajor := 3
    pyMinor := 9
    frameworkDir := "/fw"
    realpath := id
    libListing := some ["python3.9"]
    addsite := fun d p => p ++ [d] }

/-- A concrete process state with a pre-existing `PATH`, two module-search
entries and an unset `sys.real_prefix`. -/
def sampleState : PyState :=
  { environ := [("PATH", "/usr/bin:/bin")]
    sysPath := ["/std1", "/std2"]
    pfx := "/usr"
    realPfx := none }

/-- `sampleCfg` on an OS family outside the supported set. -/
def badCfg : Config :=
  { sampleCfg with system := "Plan9" }

/-! ## Helper lemmas -/

theorem strData_append (a b : String) : (a ++ b).data = a.data ++ b.data := rfl

theorem strData_mk (l : List Char) : (String.mk l).data = l := rfl

theorem envGet_envSet_self (env : List (String × String)) (k v : String) :
    envGet (envSet env k v) k = some v := by
  induction env with
  | nil => simp [envSet, envGet]
  | cons hd t ih =>
    obtain ⟨k1, v1⟩ := hd
    by_cases hk : k1 = k <;> simp [envSet, envGet, hk, ih]

theorem envGet_envSet_ne (env : List (String × String)) (k k' v : String)
    (h : k ≠ k') : envGet (envSet env k v) k' = envGet env k' := by
  induction env with
  | nil => simp [envSet, envGet, h]
  | cons hd t ih =>
    obtain ⟨k1, v1⟩ := hd
    by_cases hk : k1 = k
    · subst hk
      simp [envSet, envGet, h]
    · simp [envSet, envGet, hk, ih]

theorem find?_eq_head?_filter (p : String → Bool) (l : List String) :
    l.find? p = (l.filter p).head? := by
  induction l with
  | nil => rfl
  | cons a t ih =>
    by_cases h : p a
    · rw [List.find?_cons_of_pos _ h, List.filter_cons_of_pos h, List.head?_cons]
    · rw [List.find?_cons_of_neg _ h, List.filter_cons_of_neg h, ih]

theorem intercalate_cons_of_ne_nil {α : Type} (sep a : List α) (l : List (List α))
    (h : l ≠ []) :
    List.intercalate sep (a :: l) = a ++ sep ++ List.intercalate sep l := by
  cases l with
  | nil => exact absurd rfl h
  | cons b t => simp [List.intercalate, List.intersperse, List.append_assoc]

theorem splitOn_ne_nil (sep : Char) (l : List Char) : l.splitOn sep ≠ [] := by
  simpa [List.splitOn] using List.splitOnP_ne_nil (· == sep) l

theorem pathJoinSep_cons_pathSplit (sep : Char) (x s : String) :
    pathJoinSep sep (x :: pathSplit sep s) = x ++ String.mk [sep] ++ s := by
  apply String.ext
  have hmap : ((s.toList.splitOn sep).map String.mk).map String.toList
      = s.toList.splitOn sep := by
    rw [List.map_map]
    exact List.map_id _
  simp only [pathJoinSep, pathSplit, List.map_cons, hmap, strData_mk]
  rw [intercalate_cons_of_ne_nil _ _ _ (splitOn_ne_nil sep s.toList),
    List.intercalate_splitOn]
  rfl

theorem pjoin_posix (pname a b : String) (h : pname ≠ "windows") :
    pjoin pname a b = a ++ "/" ++ b := by
  unfold pjoin osDirSep
  rw [if_neg h]

theorem init_framework_ok_eq (cfg : Config) (s : PyState) (pname sp : String)
    (hqt : cfg.qtAvailable = false)
    (hp : platform_name cfg.system = .ok pname)
    (hsite : computeSitePath pname cfg.pyMajor (basePath cfg pname) cfg.libListing = .ok sp) :
    init_framework cfg s = (.ok (), activateMutations cfg pname sp s) := by
  simp only [init_framework, hqt, Bool.false_eq_true, if_false, hp, hsite]

theorem computeSitePath_ok_of_find (pname : String) (hw : pname ≠ "windows")
    (major : Nat) (base : String) (fs : List String) (e : String)
    (hfind : fs.find? (matchesPythonPattern major) = some e) :
    computeSitePath pname major base (some fs)
      = .ok (base ++ "/lib/" ++ e ++ "/site-packages") := by
  unfold computeSitePath
  rw [if_neg hw]
  simp only [hfind]
  rw [pjoin_posix _ _ _ hw, pjoin_posix _ _ _ hw, pjoin_posix _ _ _ hw]
  have h1 : ("/lib/" : String) = "/" ++ "lib" ++ "/" := rfl
  have h2 : ("/site-packages" : String) = "/" ++ "site-packages" := rfl
  rw [h1, h2]
  simp [String.append_assoc]

/-! ## Claim theorems -/

/-- C4: the platform-name mapping sends `"Darwin"` to `"osx"`, `"Linux"` to
`"linux"` and `"Windows"` to `"windows"`, and on every other system string it
fails with the unsupported-platform error carrying that raw string. -/
theorem platform_name_spec :
    platform_name "Darwin" = .ok "osx" ∧
    platform_name "Linux" = .ok "linux" ∧
    platform_name "Windows" = .ok "windows" ∧
    ∀ sysName : String, sysName ≠ "Darwin" → sysName ≠ "Linux" → sysName ≠ "Windows" →
      platform_name sysName = .error (.unsupportedPlatform sysName) := by
  refine ⟨rfl, rfl, rfl, fun sysName h1 h2 h3 => ?_⟩
  unfold platform_name
  rw [if_neg h1, if_neg h2, if_neg h3]

theorem platform_name_spec_witness :
    ("Plan9" : String) ≠ "Darwin" ∧
    platform_name "Plan9" = .error (.unsupportedPlatform "Plan9") :=
  ⟨by decide, platform_name_spec.2.2.2 "Plan9" (by decide) (by decide) (by decide)⟩

/-- C6: when the Qt probe import succeeds, `init_framework` returns at once
and the whole process state (environment, module search path, prefix
markers) is unchanged. -/
theorem init_framework_probe_noop (cfg : Config) (s : PyState)
    (h : cfg.qtAvailable = true) : init_framework cfg s = (.ok (), s) := by
  unfold init_framework
  rw [if_pos h]

theorem init_framework_probe_noop_witness :
    init_framework { sampleCfg with qtAvailable := true } sampleState
      = (.ok (), sampleState) :=
  init_framework_probe_noop { sampleCfg with qtAvailable := true } sampleState rfl

/-- C7: on the `"windows"` platform name the binary folder is literally
`Scripts` and the site path is the fixed `<base>\Lib\site-packages`,
independently of the directory-listing outcome (the statement quantifies
over every possible listing result, including a failing `os.listdir`),
i.e. no filesystem listing is consulted. -/
theorem windows_sitepath_fixed (major : Nat) (base : String)
    (listing : Option (List String)) :
    binFolderFor "windows" = "Scripts" ∧
    computeSitePath "windows" major base listing
      = .ok (base ++ "\\Lib\\site-packages") := by
  refine ⟨rfl, ?_⟩
  unfold computeSitePath
  rw [if_pos rfl]
  have h2 : ∀ a b : String, pjoin "windows" a b = a ++ "\\" ++ b := fun a b => rfl
  have h1 : ("\\Lib\\site-packages" : String) = "\\" ++ "Lib" ++ "\\" ++ "site-packages" := rfl
  rw [h2, h2, h1]
  simp [String.append_assoc]

/-- C8: after a successful activation, `sys.real_prefix` holds the
`sys.prefix` value from before the call and `sys.prefix` is the computed
base path. -/
theorem markers_overwritten (cfg : Config) (s : PyState) (pname sp : String)
    (hqt : cfg.qtAvailable = false)
    (hp : platform_name cfg.system = .ok pname)
    (hsite : computeSitePath pname cfg.pyMajor (basePath cfg pname) cfg.libListing = .ok sp) :
    (init_framework cfg s).1 = .ok () ∧
    (init_framework cfg s).2.realPfx = some s.pfx ∧
    (init_framework cfg s).2.pfx = basePath cfg pname := by
  rw [init_framework_ok_eq cfg s pname sp hqt hp hsite]
  exact ⟨rfl, rfl, rfl⟩

theorem markers_overwritten_witness :
    (init_framework sampleCfg sampleState).1 = .ok () ∧
    (init_framework sampleCfg sampleState).2.realPfx = some sampleState.pfx ∧
    (init_framework sampleCfg sampleState).2.pfx = basePath sampleCfg "linux" :=
  markers_overwritten sampleCfg sampleState "linux"
    "/fw/python/vendors/py3.9/linux/lib/python3.9/site-packages" rfl rfl rfl

/-- C9: whenever `init_framework` raises (any of the modelled errors: the
unsupported-platform error, the vendor-library-not-found error, or a
propagated listing failure), the state at the moment the exception leaves
the function is exactly the input state: no mutation has occurred. -/
theorem init_framework_error_frame (cfg : Config) (s s2 : PyState) (e : ActError)
    (h : init_framework cfg s = (.error e, s2)) : s2 = s := by
  unfold init_framework at h
  split at h
  · simp at h
  · split at h
    · injection h with h1 h2
      exact h2.symm
    · split at h
      · injection h with h1 h2
        exact h2.symm
      · simp at h

theorem init_framework_error_frame_witness :
    init_framework badCfg sampleState
      = (.error (.unsupportedPlatform "Plan9"), sampleState) ∧
    sampleState = sampleState :=
  ⟨rfl, init_framework_error_frame badCfg sampleState sampleState
    (.unsupportedPlatform "Plan9") rfl⟩

/-- C2: on a non-Windows platform name, when the `lib` listing (the
`os.listdir` result, supplied as `some fs`) has exactly one entry matching
the interpreter-version pattern, the discovery returns
`<base>/lib/<entry>/site-packages` for that entry. -/
theorem single_match_sitepath (pname : String) (hw : pname ≠ "windows")
    (major : Nat) (base : String) (fs : List String) (e : String)
    (hf : fs.filter (matchesPythonPattern major) = [e]) :
    computeSitePath pname major base (some fs)
      = .ok (base ++ "/lib/" ++ e ++ "/site-packages") := by
  refine computeSitePath_ok_of_find pname hw major base fs e ?_
  rw [find?_eq_head?_filter, hf]
  rfl

theorem single_match_sitepath_witness :
    computeSitePath "linux" 3 "/base" (some ["foo", "python3.9"])
      = .ok ("/base" ++ "/lib/" ++ "python3.9" ++ "/site-packages") :=
  single_match_sitepath "linux" (by decide) 3 "/base" ["foo", "python3.9"]
    "python3.9" (by decide)

/-- C3: on a non-Windows platform name, when no entry of the `lib` listing
matches the interpreter-version pattern, activation fails with the
vendor-library-not-found error carrying the major version and the entries
examined. -/
theorem no_match_error (pname : String) (hw : pname ≠ "windows")
    (major : Nat) (base : String) (fs : List String)
    (hf : fs.filter (matchesPythonPattern major) = []) :
    computeSitePath pname major base (some fs)
      = .error (.vendorLibraryNotFound major fs) := by
  have hfind : fs.find? (matchesPythonPattern major) = none := by
    rw [find?_eq_head?_filter, hf]
    rfl
  unfold computeSitePath
  rw [if_neg hw]
  simp only [hfind]

theorem no_match_error_witness :
    computeSitePath "linux" 3 "/base" (some ["foo", "python2.7x"])
      = .error (.vendorLibraryNotFound 3 ["foo", "python2.7x"]) :=
  no_match_error "linux" (by decide) 3 "/base" ["foo", "python2.7x"] (by decide)

/-- C10: on a non-Windows platform name, when several entries of the `lib`
listing match the interpreter-version pattern, the discovery does not fail:
it builds the site path from the first match in listing order, with no
uniqueness check. -/
theorem multi_match_first (pname : String) (hw : pname ≠ "windows")
    (major : Nat) (base : String) (fs : List String) (e1 e2 : String)
    (rest : List String)
    (hf : fs.filter (matchesPythonPattern major) = e1 :: e2 :: rest) :
    computeSitePath pname major base (some fs)
      = .ok (base ++ "/lib/" ++ e1 ++ "/site-packages") := by
  refine computeSitePath_ok_of_find pname hw major base fs e1 ?_
  rw [find?_eq_head?_filter, hf]
  rfl

theorem multi_match_first_witness :
    computeSitePath "linux" 3 "/base" (some ["python3.8", "python3.9"])
      = .ok ("/base" ++ "/lib/" ++ "python3.8" ++ "/site-packages") :=
  multi_match_first "linux" (by decide) 3 "/base" ["python3.8", "python3.9"]
    "python3.8" "python3.9" [] (by decide)

/-- C1: after a successful activation (probe failed, platform and site path
resolved) in which the insertion mechanism (`site.addsitedir`) appended the
resolved site directory followed by its own extra entries, the module search
path is exactly the site directory, then those extras, then all
pre-existing entries unchanged and in their original order. -/
theorem sysPath_insertion_order (cfg : Config) (s : PyState) (pname sp : String)
    (extras : List String)
    (hqt : cfg.qtAvailable = false)
    (hp : platform_name cfg.system = .ok pname)
    (hsite : computeSitePath pname cfg.pyMajor (basePath cfg pname) cfg.libListing = .ok sp)
    (hadd : cfg.addsite sp s.sysPath = s.sysPath ++ (sp :: extras)) :
    (init_framework cfg s).1 = .ok () ∧
    (init_framework cfg s).2.sysPath = (sp :: extras) ++ s.sysPath := by
  rw [init_framework_ok_eq cfg s pname sp hqt hp hsite]
  refine ⟨rfl, ?_⟩
  show (cfg.addsite sp s.sysPath).drop s.sysPath.length
      ++ (cfg.addsite sp s.sysPath).take s.sysPath.length = (sp :: extras) ++ s.sysPath
  rw [hadd, List.drop_left, List.take_left]

theorem sysPath_insertion_order_witness :
    (init_framework sampleCfg sampleState).1 = .ok () ∧
    (init_framework sampleCfg sampleState).2.sysPath =
      ("/fw/python/vendors/py3.9/linux/lib/python3.9/site-packages" :: ([] : List String))
        ++ sampleState.sysPath :=
  sysPath_insertion_order sampleCfg sampleState "linux"
    "/fw/python/vendors/py3.9/linux/lib/python3.9/site-packages" []
    rfl rfl rfl rfl

/-- C5: after a successful activation, the `PATH` environment variable is
`<base>/<bin-folder>`, then the platform's path-list separator (`;` on the
Windows platform name, `:` otherwise, as the first conjunct records), then
the previous `PATH` value verbatim (all pre-existing entries unchanged, in
their original order). -/
theorem path_env_prepend (cfg : Config) (s : PyState) (pname sp : String)
    (hqt : cfg.qtAvailable = false)
    (hp : platform_name cfg.system = .ok pname)
    (hsite : computeSitePath pname cfg.pyMajor (basePath cfg pname) cfg.libListing = .ok sp) :
    osPathSep pname = (if pname = "windows" then ';' else ':') ∧
    envGet (init_framework cfg s).2.environ "PATH" =
      some (pjoin pname (basePath cfg pname) (binFolderFor pname)
        ++ String.mk [osPathSep pname]
        ++ (envGet s.environ "PATH").getD "") := by
  refine ⟨rfl, ?_⟩
  rw [init_framework_ok_eq cfg s pname sp hqt hp hsite]
  simp only [activateMutations]
  rw [envGet_envSet_self]
  rw [envGet_envSet_ne _ _ _ _ (by decide)]
  rw [List.singleton_append, pathJoinSep_cons_pathSplit]

theorem path_env_prepend_witness :
    osPathSep "linux" = (if "linux" = "windows" then ';' else ':') ∧
    envGet (init_framework sampleCfg sampleState).2.environ "PATH" =
      some (pjoin "linux" (basePath sampleCfg "linux") (binFolderFor "linux")
        ++ String.mk [osPathSep "linux"]
        ++ (envGet sampleState.environ "PATH").getD "") :=
  path_env_prepend sampleCfg sampleState "linux"
    "/fw/python/vendors/py3.9/linux/lib/python3.9/site-packages" rfl rfl rfl

end UnrealQt
